import Mathlib

/-!
Verification development for the deploy-tool environment provisioning and
rollback orchestrator (Python sources `deploy_tool/aws.py`, `deploy_tool/cli.py`,
`deploy_tool/config.py`).  Each definition is a shallow embedding of one source
function: effectful calls to the cloud provider, the remote shell and the local
file system are made explicit as parameters (provider worlds, probe oracles,
file contents) or as event traces, while control flow, branch conditions and
string constants follow the Python line by line.
-/

namespace DeployTool

/-! ## State Store (`config.py`, `cli.py` lines 38-50)

`bucket.json` holds a single JSON object with keys `bucket`, `region` and
optionally `env`.  We embed the parsed object as `BucketRecord` and the file
itself as `Option` (present/absent). -/

/-- The parsed contents of `bucket.json`: `save_bucket_config` (cli.py line 38)
writes `\x7b"bucket": ..., "region": ..., "env"?: ...\x7d`. -/
structure BucketRecord where
  bucket : String
  region : String
  env : Option String
deriving DecidableEq

/-- Embedding of `save_bucket_config(bucket_name, region, environment)`
(cli.py lines 38-44): builds the record that overwrites `bucket.json`.
The `env` key is only written when `environment` is truthy in Python, so an
empty string behaves like `None`. -/
def save_bucket_config (bucket_name : String) (region : String)
    (environment : Option String) : BucketRecord :=
  { bucket := bucket_name, region := region,
    env := match environment with
      | some e => if e = "" then none else some e
      | none => none }

/-- Embedding of `load_bucket_config` (config.py lines 21-25, identically
cli.py lines 46-50): a missing file returns `None`; a present file is handed to
`json.load`, whose failure on unparseable content propagates to the caller
(there is no try/except around it).  The raw file is `Option String`, and
`parse` stands for `json.load` on the file contents. -/
def load_bucket_config (file : Option String)
    (parse : String → Except String BucketRecord) :
    Except String (Option BucketRecord) :=
  match file with
  | none => Except.ok none
  | some contents => (parse contents).map some

/-- Model of Python `json.load` for the counterexample: it succeeds exactly on
the one well-formed content used below and raises `JSONDecodeError` on
everything else, as the real parser does on corrupt input. -/
def jsonLoadModel : String → Except String BucketRecord := fun s =>
  if s = "WELL-FORMED" then Except.ok { bucket := "b", region := "ap-south-1", env := none }
  else Except.error "JSONDecodeError"

/-- How a deploy retrieves the record for a given environment: the reuse check
`state.get("env") == environment` (cli.py line 312) against the single stored
record.  A record saved for a different environment is not retrievable. -/
def lookup_env_record (store : Option BucketRecord) (environment : String) :
    Option BucketRecord :=
  match store with
  | some r => if r.env = some environment then some r else none
  | none => none

/-! ## S3 provider surface used by the deploy paths (`cli.py` lines 269-284,
`aws.py` lines 15-65) -/

/-- The live S3 world: names of existing buckets (with their object keys, used
later by rollback). -/
structure S3World where
  buckets : List (String × List String)
deriving DecidableEq

/-- Embedding of `bucket_exists` (cli.py lines 269-275): `head_bucket`
succeeds exactly on a live bucket, `ClientError` is caught and yields
`False`. -/
def bucket_exists (w : S3World) (bucket_name : String) : Bool :=
  w.buckets.any (fun p => p.1 == bucket_name)

/-- Embedding of `get_bucket_region` (cli.py lines 277-284): `locationOf`
stands for `get_bucket_location`, returning the `LocationConstraint` field
(`none` meaning the field is `None`) or raising `ClientError`.  A `None`
constraint maps to `"us-east-1"`; a `ClientError` maps to `None`. -/
def get_bucket_region (locationOf : String → Except Unit (Option String))
    (bucket_name : String) : Option String :=
  match locationOf bucket_name with
  | Except.error _ => none
  | Except.ok none => some "us-east-1"
  | Except.ok (some loc) => some loc

/-- Embedding of `generate_unique_bucket_name(prefix)` (aws.py lines 15-17):
the first eight characters of a fresh uuid are appended to the name part. -/
def generate_unique_bucket_name (pre : String) (suffix8 : String) : String :=
  pre ++ "-" ++ suffix8

/-- Embedding of the body of `create_public_s3_bucket(prefix)` (aws.py lines
19-65): on provider success the generated name is returned, on `ClientError`
the function prints and returns `None`.  `providerOk` abstracts whether the
provider accepts the creation and configuration calls. -/
def create_public_s3_bucket (pre : String) (suffix8 : String)
    (providerOk : Bool) : Option String :=
  if providerOk then some (generate_unique_bucket_name pre suffix8) else none

/-- The parameter list of `def create_public_s3_bucket(prefix):`
(aws.py line 19). -/
def create_public_s3_bucket_param_names : List String := ["prefix"]

/-- The keyword arguments every deploy path passes at the creation call sites
`create_public_s3_bucket(prefix=..., region=region)` (cli.py lines 323, 402
and 469). -/
def deploy_create_call_kwargs : List String := ["prefix", "region"]

/-- The error Python raises when a call passes a keyword argument the callee
does not accept. -/
def typeErrorMsg : String :=
  "TypeError: create_public_s3_bucket() got an unexpected keyword argument region"

/-- The call `create_public_s3_bucket(prefix=..., region=...)` as Python
executes it: if some keyword argument is not among the parameters of the
callee (aws.py line 19), a `TypeError` is raised before the body runs;
otherwise the body of `create_public_s3_bucket` runs. -/
def call_create_public_s3_bucket (pre : String) (suffix8 : String)
    (providerOk : Bool) : Except String (Option String) :=
  if deploy_create_call_kwargs.all
      (fun k => create_public_s3_bucket_param_names.contains k) then
    Except.ok (create_public_s3_bucket pre suffix8 providerOk)
  else
    Except.error typeErrorMsg

/-- Outcome of the bucket-selection phase of a static-site deploy. -/
inductive BucketPhaseResult where
  | reused (bucket region : String)
  | created (bucket region : String)
  | creationFailed
deriving DecidableEq

/-- Embedding of the bucket-selection phase shared verbatim by `deploy_react`
(cli.py lines 308-327), `deploy_angular` (lines 387-406) and
`deploy_react_vite` (lines 454-473), differing only in the name part passed to
creation:

  state = load_bucket_config(); bucket = None; region = "ap-south-1"
  if state and state.get("env") == environment:
      if bucket_exists(candidate): bucket = candidate;
          region = get_bucket_region(candidate) or region
  if not bucket:
      bucket = create_public_s3_bucket(prefix=..., region=region)  -- TypeError
      if not bucket: return
      save_bucket_config(bucket, region=region, environment=environment)

The result is `Except`: a raised `TypeError` propagates out of the deploy. -/
def deploy_bucket_phase (pre : String) (store : Option BucketRecord)
    (environment : String) (w : S3World)
    (locationOf : String → Except Unit (Option String))
    (suffix8 : String) (providerOk : Bool) :
    Except String (BucketPhaseResult × Option BucketRecord) :=
  let defaultRegion := "ap-south-1"
  let reuse : Option (String × String) :=
    match store with
    | some st =>
      if st.env = some environment then
        if bucket_exists w st.bucket then
          let region := match get_bucket_region locationOf st.bucket with
            | some s => if s = "" then defaultRegion else s
            | none => defaultRegion
          some (st.bucket, region)
        else none
      else none
    | none => none
  match reuse with
  | some (b, region) => Except.ok (BucketPhaseResult.reused b region, store)
  | none =>
    match call_create_public_s3_bucket pre suffix8 providerOk with
    | Except.error e => Except.error e
    | Except.ok none => Except.ok (BucketPhaseResult.creationFailed, store)
    | Except.ok (some b) =>
        Except.ok (BucketPhaseResult.created b defaultRegion,
          some (save_bucket_config b defaultRegion (some environment)))

/-- The bucket phase of `deploy_react` (cli.py lines 308-327): name part
`f"\x7benvironment\x7d-site"`. -/
def deploy_react_bucket_phase (store : Option BucketRecord) (environment : String)
    (w : S3World) (locationOf : String → Except Unit (Option String))
    (suffix8 : String) (providerOk : Bool) :
    Except String (BucketPhaseResult × Option BucketRecord) :=
  deploy_bucket_phase (environment ++ "-site") store environment w locationOf
    suffix8 providerOk

/-- The bucket phase of `deploy_angular` (cli.py lines 387-406): name part
`f"\x7benvironment\x7d-angular-site"`. -/
def deploy_angular_bucket_phase (store : Option BucketRecord) (environment : String)
    (w : S3World) (locationOf : String → Except Unit (Option String))
    (suffix8 : String) (providerOk : Bool) :
    Except String (BucketPhaseResult × Option BucketRecord) :=
  deploy_bucket_phase (environment ++ "-angular-site") store environment w locationOf
    suffix8 providerOk

/-- The bucket phase of `deploy_react_vite` (cli.py lines 454-473): name part
`f"\x7benvironment\x7d-react-vite-site"`. -/
def deploy_react_vite_bucket_phase (store : Option BucketRecord) (environment : String)
    (w : S3World) (locationOf : String → Except Unit (Option String))
    (suffix8 : String) (providerOk : Bool) :
    Except String (BucketPhaseResult × Option BucketRecord) :=
  deploy_bucket_phase (environment ++ "-react-vite-site") store environment w locationOf
    suffix8 providerOk

/-! ## Compute-host provisioning (`aws.py` lines 88-155)

`provision_ec2_with_docker(environment)` performs a fixed sequence of
effects; we embed that sequence as an event trace together with a step
function on the local tracking state (the two id files it writes). -/

/-- The externally visible effects of `provision_ec2_with_docker`, one
constructor per provider call or local file write. -/
inductive ProvEvent where
  | createSecurityGroup
  | authorizeIngress
  | createInstance
  | waitUntilRunning
  | reloadInstance
  | persistInstanceId
  | persistSecurityGroupId
deriving DecidableEq

/-- The effect order of `provision_ec2_with_docker` read off aws.py:
`create_security_group` (line 91), `authorize_ingress` (line 96),
`create_instances` (line 134), `wait_until_running` (line 145),
`reload` (line 146), write `ec2_instance_id.txt` (line 148), write
`security_group_id.txt` (line 151). -/
def provision_ec2_with_docker_trace : List ProvEvent :=
  [ProvEvent.createSecurityGroup, ProvEvent.authorizeIngress,
   ProvEvent.createInstance, ProvEvent.waitUntilRunning,
   ProvEvent.reloadInstance, ProvEvent.persistInstanceId,
   ProvEvent.persistSecurityGroupId]

/-- Which tracking files exist on disk: `ec2_instance_id.txt` and
`security_group_id.txt`. -/
structure TrackingFiles where
  ec2InstanceIdFile : Bool
  securityGroupIdFile : Bool
deriving DecidableEq

/-- How one provisioning event changes the on-disk tracking state: only the
two file writes touch it. -/
def applyProvEvent (s : TrackingFiles) : ProvEvent → TrackingFiles
  | ProvEvent.persistInstanceId => { s with ec2InstanceIdFile := true }
  | ProvEvent.persistSecurityGroupId => { s with securityGroupIdFile := true }
  | _ => s

/-- The on-disk tracking state after the first `n` effects of
`provision_ec2_with_docker`, starting from no tracking files: exactly the
states a crash after `n` effects leaves behind. -/
def provisionCrashState (n : Nat) : TrackingFiles :=
  (provision_ec2_with_docker_trace.take n).foldl applyProvEvent
    { ec2InstanceIdFile := false, securityGroupIdFile := false }

/-! ## Readiness pollers (`aws.py` lines 157-183) -/

/-- Embedding of the loop body of `wait_for_ssh(ip, port, timeout)`
(aws.py lines 157-170).  `probe k` is whether the k-th connection attempt
succeeds; `dur k` is how long the k-th failed attempt takes before its
exception (0 for an immediate refusal, up to the 5-unit connect timeout);
`elapsed` is `time.time() - start_time`; the loop sleeps 5 after a failed
attempt whose elapsed time has not yet exceeded `timeout`.  `Except.ok r`
is success at attempt `r`; `Except.error r` is the `TimeoutError` raised
after `r` attempts.  The fuel argument only bounds recursion; the
termination theorem below shows the fuel chosen in `wait_for_ssh` is never
exhausted, so `none` is unreachable. -/
def wait_for_ssh_loop (probe : Nat → Bool) (dur : Nat → Nat) (timeout : Nat) :
    Nat → Nat → Nat → Option (Except Nat Nat)
  | 0, _, _ => none
  | fuel + 1, elapsed, k =>
    if probe k then some (Except.ok (k + 1))
    else
      let e := elapsed + dur k
      if timeout < e then some (Except.error (k + 1))
      else wait_for_ssh_loop probe dur timeout fuel (e + 5) (k + 1)

/-- Embedding of `wait_for_ssh` (aws.py lines 157-170) with fuel
`timeout / 5 + 2`, which the termination theorem shows always suffices. -/
def wait_for_ssh (probe : Nat → Bool) (dur : Nat → Nat) (timeout : Nat) :
    Option (Except Nat Nat) :=
  wait_for_ssh_loop probe dur timeout (timeout / 5 + 2) 0 0

/-- Embedding of the `for i in range(timeout // 5)` loop of
`wait_for_docker(ssh, timeout)` (aws.py lines 172-183): `probe k` is whether
the k-th `sudo docker --version` output contains `"Docker version"`.
`Except.ok r` is success at attempt `r`; `Except.error r` is the exception
raised after the loop exhausts its `r` iterations. -/
def wait_for_docker_loop (probe : Nat → Bool) : Nat → Nat → Except Nat Nat
  | 0, k => Except.error k
  | n + 1, k => if probe k then Except.ok (k + 1) else wait_for_docker_loop probe n (k + 1)

/-- Embedding of `wait_for_docker` (aws.py lines 172-183). -/
def wait_for_docker (probe : Nat → Bool) (timeout : Nat) : Except Nat Nat :=
  wait_for_docker_loop probe (timeout / 5) 0

/-! ## Remote command pipeline (`aws.py` lines 216-251)

After the upload, `upload_and_run_on_ec2` runs three remote commands in a
fixed order, each via `ssh.exec_command` followed by
`recv_exit_status`, printing the captured stdout and stderr, and on a
non-zero exit status printing a failure label and returning from the
function (plain `return`, no exception).  We embed the observable behaviour
of that section as an event trace, parameterised by the remote execution
oracle `exec` mapping a command line to (exit status, stdout, stderr). -/

/-- The three remote command lines, in declared order (aws.py lines 220,
230 and 240). -/
def pipelineCmd1 : String := "sudo unzip -o app.zip -d app"

/-- The docker build command (aws.py line 230). -/
def pipelineCmd2 : String := "sudo docker build -t myapp ./app"

/-- The docker run command (aws.py line 240). -/
def pipelineCmd3 : String := "sudo docker run -d -p 80:3000 myapp"

/-- The observable events of the pipeline section: a command being
executed, its captured stdout and stderr being printed, the failure notice
(which carries only the step label, aws.py lines 225, 235, 245), and the
success notice (line 248). -/
inductive PipelineEvent where
  | ran (cmd : String)
  | printedOut (s : String)
  | printedErr (s : String)
  | failed (label : String)
  | completed (publicIp : String)
deriving DecidableEq

/-- Embedding of the command sequence of `upload_and_run_on_ec2`
(aws.py lines 216-251): each step runs, its output is printed, and the
first non-zero exit status prints `Failed: <label>` and returns, skipping
the remaining steps.  `exec cmd = (exit status, stdout, stderr)`. -/
def upload_and_run_steps (publicIp : String)
    (exec : String → Int × String × String) : List PipelineEvent :=
  let r1 := exec pipelineCmd1
  [PipelineEvent.ran pipelineCmd1, PipelineEvent.printedOut r1.2.1,
   PipelineEvent.printedErr r1.2.2] ++
  if r1.1 ≠ 0 then [PipelineEvent.failed "unzip"]
  else
    let r2 := exec pipelineCmd2
    [PipelineEvent.ran pipelineCmd2, PipelineEvent.printedOut r2.2.1,
     PipelineEvent.printedErr r2.2.2] ++
    if r2.1 ≠ 0 then [PipelineEvent.failed "docker build"]
    else
      let r3 := exec pipelineCmd3
      [PipelineEvent.ran pipelineCmd3, PipelineEvent.printedOut r3.2.1,
       PipelineEvent.printedErr r3.2.2] ++
      if r3.1 ≠ 0 then [PipelineEvent.failed "docker run"]
      else [PipelineEvent.completed publicIp]

/-! ## Rollback (`aws.py` lines 255-291)

`rollback_all_resources` reads the three local tracking artifacts
(`ec2_instance_id.txt`, `security_group_id.txt`, `bucket.json`) and tears
down the corresponding provider resources.  We embed the local state, the
provider state, and the run as an event trace plus final states; a provider
exception (`ClientError` on a resource that no longer exists) propagates
out of the Python function, so the run stops there with the mutations made
so far kept. -/

/-- The local tracking state rollback reads: the two id files and the
parsed `bucket.json` (its corrupt-file behaviour is covered by
`load_bucket_config` above; here the file is either absent or
well-formed). -/
structure FilesState where
  ec2InstanceIdFile : Option String
  securityGroupIdFile : Option String
  bucketConfigFile : Option BucketRecord
deriving DecidableEq

/-- The provider state rollback acts on: live instance ids, live security
group ids, and live buckets with their object keys. -/
structure CloudState where
  instances : List String
  securityGroups : List String
  buckets : List (String × List String)
deriving DecidableEq

/-- One provider call or local mutation made by `rollback_all_resources`. -/
inductive RbEvent where
  | terminateInstance (iid : String)
  | waitUntilTerminated (iid : String)
  | removeEc2IdFile
  | deleteSecurityGroup (gid : String)
  | removeSgIdFile
  | deleteObject (bucket key : String)
  | deleteBucket (bucket : String)
  | unlinkBucketConfig
deriving DecidableEq

/-- `instance.terminate()` on the id read from the file: succeeds on a live
instance (which then reaches terminated state), raises
`ClientError` on an id the provider no longer knows. -/
def terminateInstanceOp (c : CloudState) (iid : String) : Except String CloudState :=
  if c.instances.contains iid then
    Except.ok { c with instances := c.instances.erase iid }
  else Except.error "ClientError: InvalidInstanceID.NotFound"

/-- `sg.delete()` on the id read from the file: succeeds on a live group,
raises `ClientError` on a group the provider no longer knows. -/
def deleteSecurityGroupOp (c : CloudState) (gid : String) : Except String CloudState :=
  if c.securityGroups.contains gid then
    Except.ok { c with securityGroups := c.securityGroups.erase gid }
  else Except.error "ClientError: InvalidGroup.NotFound"

/-- Embedding of `delete_s3_bucket(bucket_name)` (aws.py lines 255-261):
every object of the bucket is deleted, then the bucket itself.  Iterating
`bucket.objects.all()` on a bucket the provider does not know raises
`ClientError` before anything is deleted.  On success it returns the new
provider state together with its effect trace. -/
def delete_s3_bucket (c : CloudState) (bucket_name : String) :
    Except String (CloudState × List RbEvent) :=
  match c.buckets.find? (fun p => p.1 == bucket_name) with
  | none => Except.error "ClientError: NoSuchBucket"
  | some p =>
    Except.ok ({ c with buckets := c.buckets.filter (fun q => !(q.1 == bucket_name)) },
      p.2.map (fun key => RbEvent.deleteObject bucket_name key) ++
      [RbEvent.deleteBucket bucket_name])

/-- The outcome of one rollback run: its event trace, the local and
provider states it leaves, and the exception it stopped with, if any. -/
structure RollbackRun where
  events : List RbEvent
  files : FilesState
  cloud : CloudState
  err : Option String

/-- The EC2 block of `rollback_all_resources` (aws.py lines 266-274):
skipped when `ec2_instance_id.txt` does not exist; otherwise terminate,
wait until terminated, and only then remove the file.  A raised
`ClientError` leaves the file in place. -/
def rollbackEc2Phase (fs : FilesState) (c : CloudState) :
    List RbEvent × FilesState × CloudState × Option String :=
  match fs.ec2InstanceIdFile with
  | none => ([], fs, c, none)
  | some iid =>
    match terminateInstanceOp c iid with
    | Except.error e => ([RbEvent.terminateInstance iid], fs, c, some e)
    | Except.ok c1 =>
      ([RbEvent.terminateInstance iid, RbEvent.waitUntilTerminated iid,
        RbEvent.removeEc2IdFile],
       { fs with ec2InstanceIdFile := none }, c1, none)

/-- The security-group block of `rollback_all_resources` (aws.py lines
276-283): skipped when `security_group_id.txt` does not exist; otherwise
delete the group and only then remove the file. -/
def rollbackSgPhase (fs : FilesState) (c : CloudState) :
    List RbEvent × FilesState × CloudState × Option String :=
  match fs.securityGroupIdFile with
  | none => ([], fs, c, none)
  | some gid =>
    match deleteSecurityGroupOp c gid with
    | Except.error e => ([RbEvent.deleteSecurityGroup gid], fs, c, some e)
    | Except.ok c1 =>
      ([RbEvent.deleteSecurityGroup gid, RbEvent.removeSgIdFile],
       { fs with securityGroupIdFile := none }, c1, none)

/-- The bucket block of `rollback_all_resources` (aws.py lines 285-291):
skipped (with a printed warning) when `load_bucket_config()` returns
`None`; otherwise `delete_s3_bucket` empties and deletes the bucket, and
only then is `bucket.json` unlinked. -/
def rollbackBucketPhase (fs : FilesState) (c : CloudState) :
    List RbEvent × FilesState × CloudState × Option String :=
  match fs.bucketConfigFile with
  | none => ([], fs, c, none)
  | some st =>
    match delete_s3_bucket c st.bucket with
    | Except.error e => ([], fs, c, some e)
    | Except.ok (c1, evs) =>
      (evs ++ [RbEvent.unlinkBucketConfig],
       { fs with bucketConfigFile := none }, c1, none)

/-- Embedding of `rollback_all_resources` (aws.py lines 263-291): the three
blocks run in order; a raised provider exception stops the run there,
keeping the mutations already made. -/
def rollback_all_resources (fs : FilesState) (c : CloudState) : RollbackRun :=
  match rollbackEc2Phase fs c with
  | (e1, fs1, c1, some err1) => ⟨e1, fs1, c1, some err1⟩
  | (e1, fs1, c1, none) =>
    match rollbackSgPhase fs1 c1 with
    | (e2, fs2, c2, some err2) => ⟨e1 ++ e2, fs2, c2, some err2⟩
    | (e2, fs2, c2, none) =>
      match rollbackBucketPhase fs2 c2 with
      | (e3, fs3, c3, err3) => ⟨e1 ++ e2 ++ e3, fs3, c3, err3⟩

/-- Every `p`-event of `t` occurs strictly before every `q`-event: `t`
splits into a part with no `q`-event followed by a part with no
`p`-event. -/
def Precedes (p q : RbEvent → Bool) (t : List RbEvent) : Prop :=
  ∃ t1 t2, t = t1 ++ t2 ∧ (∀ e ∈ t1, q e = false) ∧ (∀ e ∈ t2, p e = false)

/-- Classifier for termination-wait events. -/
def isWaitTerminated : RbEvent → Bool
  | RbEvent.waitUntilTerminated _ => true
  | _ => false

/-- Classifier for security-group deletion events. -/
def isDeleteSecurityGroup : RbEvent → Bool
  | RbEvent.deleteSecurityGroup _ => true
  | _ => false

/-- Classifier for object deletion events. -/
def isDeleteObject : RbEvent → Bool
  | RbEvent.deleteObject _ _ => true
  | _ => false

/-- Classifier for bucket deletion events. -/
def isDeleteBucket : RbEvent → Bool
  | RbEvent.deleteBucket _ => true
  | _ => false

/-- Classifier for the removal of `ec2_instance_id.txt`. -/
def isRemoveEc2IdFile : RbEvent → Bool
  | RbEvent.removeEc2IdFile => true
  | _ => false

/-- Classifier for the removal of `security_group_id.txt`. -/
def isRemoveSgIdFile : RbEvent → Bool
  | RbEvent.removeSgIdFile => true
  | _ => false

/-- Classifier for the unlinking of `bucket.json`. -/
def isUnlinkBucketConfig : RbEvent → Bool
  | RbEvent.unlinkBucketConfig => true
  | _ => false

/-- Exec oracle where the docker-build step exits 1 and every other step
exits 0, with empty captured output. -/
def execBuildFailsWith1 : String → Int × String × String := fun c =>
  if c = pipelineCmd2 then (1, "", "") else (0, "", "")

/-- Exec oracle where the docker-build step exits 2 and every other step
exits 0, with empty captured output. -/
def execBuildFailsWith2 : String → Int × String × String := fun c =>
  if c = pipelineCmd2 then (2, "", "") else (0, "", "")

/-! ## Theorems -/

/-- Claim C1, counterexample.  The claim states that the network rule set id
and compute instance id are persisted strictly before the wait-until-running
call begins.  In `provision_ec2_with_docker` the opposite holds:
`wait_until_running` (aws.py line 145) precedes both file writes (lines
148-152), and a crash during the wait (after the first four effects) leaves
neither identifier on disk. -/
theorem provision_persist_not_before_wait :
    ¬ (provision_ec2_with_docker_trace.indexOf ProvEvent.persistSecurityGroupId <
        provision_ec2_with_docker_trace.indexOf ProvEvent.waitUntilRunning) ∧
    ¬ (provision_ec2_with_docker_trace.indexOf ProvEvent.persistInstanceId <
        provision_ec2_with_docker_trace.indexOf ProvEvent.waitUntilRunning) ∧
    provisionCrashState 4 = { ec2InstanceIdFile := false, securityGroupIdFile := false } := by
  decide

/-- Claim C1, amended.  Both identifiers are persisted only after
`wait_until_running` returns: the wait strictly precedes the instance-id
write, which strictly precedes the rule-set-id write, and a crash at any
point up to and including the wait leaves no identifier on disk. -/
theorem provision_persist_after_wait :
    provision_ec2_with_docker_trace.indexOf ProvEvent.waitUntilRunning <
      provision_ec2_with_docker_trace.indexOf ProvEvent.persistInstanceId ∧
    provision_ec2_with_docker_trace.indexOf ProvEvent.persistInstanceId <
      provision_ec2_with_docker_trace.indexOf ProvEvent.persistSecurityGroupId ∧
    ProvEvent.persistInstanceId ∈ provision_ec2_with_docker_trace ∧
    ProvEvent.persistSecurityGroupId ∈ provision_ec2_with_docker_trace ∧
    provisionCrashState 5 = { ec2InstanceIdFile := false, securityGroupIdFile := false } := by
  decide

/-- Claim C9, counterexample.  A crash between the two persistence writes of
`provision_ec2_with_docker` (after its first six effects, i.e. right after
`ec2_instance_id.txt` is written and before `security_group_id.txt` is)
leaves the compute instance id recorded without the network rule set id,
violating the claimed invariant. -/
theorem crash_between_writes_breaks_invariant :
    (provisionCrashState 6).ec2InstanceIdFile = true ∧
    (provisionCrashState 6).securityGroupIdFile = false := by
  decide

/-- Claim C9, amended.  The code writes the instance id before the rule-set
id, so along provisioning the states satisfy the converse implication: in
every crash state of `provision_ec2_with_docker`, if the rule-set id is
recorded then the instance id is recorded.  The claimed direction fails
exactly between the two writes. -/
theorem provision_states_converse_invariant (n : Nat) :
    (provisionCrashState n).securityGroupIdFile = true →
    (provisionCrashState n).ec2InstanceIdFile = true := by
  have key : ∀ m : Fin 8, (provisionCrashState m.val).securityGroupIdFile = true →
      (provisionCrashState m.val).ec2InstanceIdFile = true := by decide
  by_cases h : n < 8
  · exact key ⟨n, h⟩
  · have hlen : provision_ec2_with_docker_trace.length ≤ n := by
      simp [provision_ec2_with_docker_trace]; omega
    have h7 : provisionCrashState n = provisionCrashState 7 := by
      unfold provisionCrashState
      rw [List.take_of_length_le hlen,
        List.take_of_length_le (by simp [provision_ec2_with_docker_trace])]
    rw [h7]
    exact key ⟨7, by omega⟩

/-- Claim C9, witness for the amended theorem at the completed-provisioning
state. -/
theorem provision_states_converse_invariant_witness :
    (provisionCrashState 7).ec2InstanceIdFile = true :=
  provision_states_converse_invariant 7 (by decide)

/-- Claim C7, counterexample.  `load_bucket_config` returns `None` for a
missing file, but hands a present file straight to `json.load` with no
exception handler, so a corrupt file raises `JSONDecodeError` to the caller
instead of degrading to absent. -/
theorem load_bucket_config_corrupt_raises :
    load_bucket_config none jsonLoadModel = Except.ok none ∧
    load_bucket_config (some "garbage") jsonLoadModel =
      Except.error "JSONDecodeError" := by
  exact ⟨rfl, rfl⟩

/-- Claim C7, amended.  A missing backing file yields the absent result, but
an unparseable backing file propagates the parse exception to the caller
(config.py lines 21-25 wrap `json.load` in no try/except). -/
theorem load_bucket_config_missing_absent_corrupt_propagates
    (parse : String → Except String BucketRecord) :
    load_bucket_config none parse = Except.ok none ∧
    ∀ contents e, parse contents = Except.error e →
      load_bucket_config (some contents) parse = Except.error e := by
  refine ⟨rfl, ?_⟩
  intro contents e h
  simp [load_bucket_config, h, Except.map]

/-- Claim C8, counterexample.  After `save_bucket_config("bucket-a", env="dev")`
the record for `dev` is retrievable, but a subsequent
`save_bucket_config("bucket-b", env="prod")` overwrites the single
`bucket.json`, after which `dev`'s record is gone rather than present and
unchanged. -/
theorem save_overwrites_other_environment :
    lookup_env_record (some (save_bucket_config "bucket-a" "ap-south-1" (some "dev"))) "dev"
      = some { bucket := "bucket-a", region := "ap-south-1", env := some "dev" } ∧
    lookup_env_record (some (save_bucket_config "bucket-b" "ap-south-1" (some "prod"))) "dev"
      = none := by
  exact ⟨rfl, rfl⟩

/-- Claim C8, amended.  The persisted state is a single last-deployed record
tagged with its environment, not one record per environment: saving a record
for one environment makes that environment's record the only retrievable
one, and any other environment's previously saved record is lost. -/
theorem save_keeps_single_record (b r e eOther : String)
    (hne : e ≠ eOther) (hnonempty : e ≠ "") :
    lookup_env_record (some (save_bucket_config b r (some e))) eOther = none ∧
    lookup_env_record (some (save_bucket_config b r (some e))) e
      = some (save_bucket_config b r (some e)) := by
  constructor
  · simp [lookup_env_record, save_bucket_config, hnonempty, hne]
  · simp [lookup_env_record, save_bucket_config, hnonempty]

/-- Claim C8, witness for the amended theorem at environments `prod` and
`dev`. -/
theorem save_keeps_single_record_witness :
    lookup_env_record (some (save_bucket_config "bucket-b" "ap-south-1" (some "prod"))) "dev"
      = none ∧
    lookup_env_record (some (save_bucket_config "bucket-b" "ap-south-1" (some "prod"))) "prod"
      = some (save_bucket_config "bucket-b" "ap-south-1" (some "prod")) :=
  save_keeps_single_record "bucket-b" "ap-south-1" "prod" "dev"
    (by decide) (by decide)

/-- Claim C2, evaluation at the failing input.  With an empty State Store
(no cached record) a `deploy_react` run for environment `dev` reaches the
creation branch, whose call `create_public_s3_bucket(prefix=..., region=...)`
raises `TypeError` (the callee accepts only `prefix`), so no bucket is
created and no record is persisted — contradicting the claimed
create-and-update behaviour. -/
theorem deploy_react_create_branch_type_error_eval :
    deploy_react_bucket_phase none "dev" { buckets := [] }
      (fun _ => Except.error ()) "abc12345" true = Except.error typeErrorMsg := by
  exact rfl

/-- Claim C10.  In every static-site deploy path (react, angular,
react-vite), whenever no cached bucket is reusable — no stored record, a
stored record for a different environment, or a stored bucket that fails
the existence probe — the creation branch raises `TypeError`, because the
call passes a `region` keyword argument that `create_public_s3_bucket`
(aws.py line 19) does not accept; no bucket is created or persisted. -/
theorem deploy_create_branch_always_type_error (store : Option BucketRecord)
    (environment : String) (w : S3World)
    (locationOf : String → Except Unit (Option String))
    (suffix8 : String) (providerOk : Bool)
    (h : ∀ st, store = some st → st.env = some environment →
      bucket_exists w st.bucket = false) :
    deploy_react_bucket_phase store environment w locationOf suffix8 providerOk
      = Except.error typeErrorMsg ∧
    deploy_angular_bucket_phase store environment w locationOf suffix8 providerOk
      = Except.error typeErrorMsg ∧
    deploy_react_vite_bucket_phase store environment w locationOf suffix8 providerOk
      = Except.error typeErrorMsg := by
  have hcall : ∀ pre, call_create_public_s3_bucket pre suffix8 providerOk
      = Except.error typeErrorMsg := fun pre => rfl
  have key : ∀ pre, deploy_bucket_phase pre store environment w locationOf suffix8 providerOk
      = Except.error typeErrorMsg := by
    intro pre
    unfold deploy_bucket_phase
    cases hst : store with
    | none => simp [hcall]
    | some st =>
      by_cases he : st.env = some environment
      · have hb := h st hst he
        simp [he, hb, hcall]
      · simp [he, hcall]
  exact ⟨key _, key _, key _⟩

/-- Claim C10, witness: an empty State Store for environment `dev`. -/
theorem deploy_create_branch_always_type_error_witness :
    deploy_react_bucket_phase none "dev" { buckets := [] }
      (fun _ => Except.error ()) "00aa11bb" true = Except.error typeErrorMsg ∧
    deploy_angular_bucket_phase none "dev" { buckets := [] }
      (fun _ => Except.error ()) "00aa11bb" true = Except.error typeErrorMsg ∧
    deploy_react_vite_bucket_phase none "dev" { buckets := [] }
      (fun _ => Except.error ()) "00aa11bb" true = Except.error typeErrorMsg :=
  deploy_create_branch_always_type_error none "dev" { buckets := [] }
    (fun _ => Except.error ()) "00aa11bb" true (fun _ hst => nomatch hst)

/-- Claim C4, counterexample.  Against a target that never becomes ready,
with `maxWait` 20 and instantaneous connection failures, `wait_for_ssh`
performs 6 attempts before raising — not at most 4-5 as claimed — because
the elapsed-time check `time.time() - start_time > timeout` runs only after
each failed attempt.  (`wait_for_docker` with `maxWait` 20 performs exactly
`20 // 5 = 4` attempts, within the claim.) -/
theorem wait_for_ssh_six_attempts_at_twenty :
    wait_for_ssh (fun _ => false) (fun _ => 0) 20 = some (Except.error 6) ∧
    wait_for_docker (fun _ => false) 20 = Except.error 4 ∧ ¬ (6 ≤ 5) := by
  exact ⟨rfl, rfl, by omega⟩

/-- Against a probe that never succeeds, the ssh wait loop always
terminates in a timeout error, with an attempt count bounded by the
remaining fuel, provided the fuel dominates the timeout. -/
theorem wait_for_ssh_loop_never_ready (dur : Nat → Nat) (timeout : Nat) :
    ∀ fuel elapsed k, timeout < elapsed + 5 * fuel →
      ∃ r, wait_for_ssh_loop (fun _ => false) dur timeout (fuel + 1) elapsed k
        = some (Except.error r) ∧ r ≤ k + fuel + 1 := by
  intro fuel
  induction fuel with
  | zero =>
    intro elapsed k h
    have he : timeout < elapsed + dur k := by omega
    exact ⟨k + 1, by simp [wait_for_ssh_loop, he], by omega⟩
  | succ f ih =>
    intro elapsed k h
    by_cases hc : timeout < elapsed + dur k
    · exact ⟨k + 1, by simp [wait_for_ssh_loop, hc], by omega⟩
    · obtain ⟨r, hr, hb⟩ := ih (elapsed + dur k + 5) (k + 1) (by omega)
      refine ⟨r, ?_, by omega⟩
      simpa [wait_for_ssh_loop, hc] using hr

/-- Against a probe that never succeeds, `wait_for_docker`'s loop makes
exactly one attempt per remaining iteration and then raises. -/
theorem wait_for_docker_loop_never_ready :
    ∀ n k, wait_for_docker_loop (fun _ => false) n k = Except.error (k + n) := by
  intro n
  induction n with
  | zero => intro k; simp [wait_for_docker_loop]
  | succ m ih =>
    intro k
    simp [wait_for_docker_loop, ih (k + 1)]
    omega

/-- Claim C4, amended.  Both pollers retry at a fixed 5-unit interval and
swallow each attempt's failure (built into their loop definitions), and
both terminate with a timeout error against a target that never becomes
ready: `wait_for_docker` after exactly `maxWait / 5` attempts, and
`wait_for_ssh` after at most `maxWait / 5 + 2` attempts — which is 6, not
4-5, when `maxWait` is 20 and each failed attempt returns immediately. -/
theorem pollers_terminate_with_attempt_bounds (dur : Nat → Nat) (timeout : Nat) :
    (∃ r, wait_for_ssh (fun _ => false) dur timeout = some (Except.error r) ∧
      r ≤ timeout / 5 + 2) ∧
    wait_for_docker (fun _ => false) timeout = Except.error (timeout / 5) := by
  constructor
  · obtain ⟨r, hr, hb⟩ := wait_for_ssh_loop_never_ready dur timeout (timeout / 5 + 1) 0 0
      (by omega)
    exact ⟨r, hr, by omega⟩
  · have h := wait_for_docker_loop_never_ready (timeout / 5) 0
    simpa [wait_for_docker] using h

/-- Claim C3, counterexample.  The claim requires the surfaced error of a
failed pipeline step to be a structured `RemoteCommandFailed` carrying the
exit code.  But two runs whose docker-build step fails with different exit
codes (1 versus 2) are observationally identical: the failure surfaces only
as the printed label `docker build` (aws.py line 235), the exit code
appears nowhere, and the function returns normally instead of raising. -/
theorem pipeline_failure_hides_exit_code :
    upload_and_run_steps "1.2.3.4" execBuildFailsWith1
      = upload_and_run_steps "1.2.3.4" execBuildFailsWith2 ∧
    upload_and_run_steps "1.2.3.4" execBuildFailsWith1 =
      [PipelineEvent.ran pipelineCmd1, PipelineEvent.printedOut "",
       PipelineEvent.printedErr "", PipelineEvent.ran pipelineCmd2,
       PipelineEvent.printedOut "", PipelineEvent.printedErr "",
       PipelineEvent.failed "docker build"] := by
  exact ⟨rfl, rfl⟩

/-- Claim C3, amended.  The remote steps execute strictly in declared order
and the first non-zero exit status aborts all remaining steps — when the
docker-build step fails, docker run is never invoked — and the failure is
reported by a printed label identifying the failing step together with its
captured output; but no structured error carrying the exit code is raised:
the function returns normally. -/
theorem pipeline_order_abort_and_reporting (publicIp : String)
    (exec : String → Int × String × String) :
    ((exec pipelineCmd1).1 ≠ 0 →
      upload_and_run_steps publicIp exec =
        [PipelineEvent.ran pipelineCmd1,
         PipelineEvent.printedOut (exec pipelineCmd1).2.1,
         PipelineEvent.printedErr (exec pipelineCmd1).2.2,
         PipelineEvent.failed "unzip"] ∧
      PipelineEvent.ran pipelineCmd2 ∉ upload_and_run_steps publicIp exec ∧
      PipelineEvent.ran pipelineCmd3 ∉ upload_and_run_steps publicIp exec) ∧
    ((exec pipelineCmd1).1 = 0 → (exec pipelineCmd2).1 ≠ 0 →
      upload_and_run_steps publicIp exec =
        [PipelineEvent.ran pipelineCmd1,
         PipelineEvent.printedOut (exec pipelineCmd1).2.1,
         PipelineEvent.printedErr (exec pipelineCmd1).2.2,
         PipelineEvent.ran pipelineCmd2,
         PipelineEvent.printedOut (exec pipelineCmd2).2.1,
         PipelineEvent.printedErr (exec pipelineCmd2).2.2,
         PipelineEvent.failed "docker build"] ∧
      PipelineEvent.ran pipelineCmd3 ∉ upload_and_run_steps publicIp exec) ∧
    ((exec pipelineCmd1).1 = 0 → (exec pipelineCmd2).1 = 0 →
        (exec pipelineCmd3).1 ≠ 0 →
      upload_and_run_steps publicIp exec =
        [PipelineEvent.ran pipelineCmd1,
         PipelineEvent.printedOut (exec pipelineCmd1).2.1,
         PipelineEvent.printedErr (exec pipelineCmd1).2.2,
         PipelineEvent.ran pipelineCmd2,
         PipelineEvent.printedOut (exec pipelineCmd2).2.1,
         PipelineEvent.printedErr (exec pipelineCmd2).2.2,
         PipelineEvent.ran pipelineCmd3,
         PipelineEvent.printedOut (exec pipelineCmd3).2.1,
         PipelineEvent.printedErr (exec pipelineCmd3).2.2,
         PipelineEvent.failed "docker run"]) ∧
    ((exec pipelineCmd1).1 = 0 → (exec pipelineCmd2).1 = 0 →
        (exec pipelineCmd3).1 = 0 →
      upload_and_run_steps publicIp exec =
        [PipelineEvent.ran pipelineCmd1,
         PipelineEvent.printedOut (exec pipelineCmd1).2.1,
         PipelineEvent.printedErr (exec pipelineCmd1).2.2,
         PipelineEvent.ran pipelineCmd2,
         PipelineEvent.printedOut (exec pipelineCmd2).2.1,
         PipelineEvent.printedErr (exec pipelineCmd2).2.2,
         PipelineEvent.ran pipelineCmd3,
         PipelineEvent.printedOut (exec pipelineCmd3).2.1,
         PipelineEvent.printedErr (exec pipelineCmd3).2.2,
         PipelineEvent.completed publicIp]) := by
  refine ⟨?_, ?_, ?_, ?_⟩
  · intro h1
    have ht : upload_and_run_steps publicIp exec =
        [PipelineEvent.ran pipelineCmd1,
         PipelineEvent.printedOut (exec pipelineCmd1).2.1,
         PipelineEvent.printedErr (exec pipelineCmd1).2.2,
         PipelineEvent.failed "unzip"] := by
      simp [upload_and_run_steps, h1]
    refine ⟨ht, ?_, ?_⟩ <;> rw [ht] <;>
      simp [pipelineCmd1, pipelineCmd2, pipelineCmd3]
  · intro h1 h2
    have ht : upload_and_run_steps publicIp exec =
        [PipelineEvent.ran pipelineCmd1,
         PipelineEvent.printedOut (exec pipelineCmd1).2.1,
         PipelineEvent.printedErr (exec pipelineCmd1).2.2,
         PipelineEvent.ran pipelineCmd2,
         PipelineEvent.printedOut (exec pipelineCmd2).2.1,
         PipelineEvent.printedErr (exec pipelineCmd2).2.2,
         PipelineEvent.failed "docker build"] := by
      simp [upload_and_run_steps, h1, h2]
    refine ⟨ht, ?_⟩
    rw [ht]
    simp [pipelineCmd1, pipelineCmd2, pipelineCmd3]
  · intro h1 h2 h3
    simp [upload_and_run_steps, h1, h2, h3]
  · intro h1 h2 h3
    simp [upload_and_run_steps, h1, h2, h3]

/-- When the EC2 block finishes without an exception, the instance file is
gone and the other two tracking artifacts are untouched. -/
theorem rollbackEc2Phase_ok (fs : FilesState) (c : CloudState)
    (e1 : List RbEvent) (fs1 : FilesState) (c1 : CloudState)
    (h : rollbackEc2Phase fs c = (e1, fs1, c1, none)) :
    fs1.ec2InstanceIdFile = none ∧
    fs1.securityGroupIdFile = fs.securityGroupIdFile ∧
    fs1.bucketConfigFile = fs.bucketConfigFile := by
  unfold rollbackEc2Phase at h
  split at h
  · simp only [Prod.mk.injEq] at h
    obtain ⟨-, rfl, -, -⟩ := h
    simp_all
  · rename_i iid hfs
    cases hop : terminateInstanceOp c iid with
    | error e =>
      rw [hop] at h
      simp at h
    | ok cNew =>
      rw [hop] at h
      simp only [Prod.mk.injEq] at h
      obtain ⟨-, rfl, -, -⟩ := h
      simp

/-- When the security-group block finishes without an exception, the group
file is gone and the other two tracking artifacts are untouched. -/
theorem rollbackSgPhase_ok (fs : FilesState) (c : CloudState)
    (e2 : List RbEvent) (fs2 : FilesState) (c2 : CloudState)
    (h : rollbackSgPhase fs c = (e2, fs2, c2, none)) :
    fs2.securityGroupIdFile = none ∧
    fs2.ec2InstanceIdFile = fs.ec2InstanceIdFile ∧
    fs2.bucketConfigFile = fs.bucketConfigFile := by
  unfold rollbackSgPhase at h
  split at h
  · simp only [Prod.mk.injEq] at h
    obtain ⟨-, rfl, -, -⟩ := h
    simp_all
  · rename_i gid hfs
    cases hop : deleteSecurityGroupOp c gid with
    | error e =>
      rw [hop] at h
      simp at h
    | ok cNew =>
      rw [hop] at h
      simp only [Prod.mk.injEq] at h
      obtain ⟨-, rfl, -, -⟩ := h
      simp

/-- When the bucket block finishes without an exception, `bucket.json` is
gone and the other two tracking artifacts are untouched. -/
theorem rollbackBucketPhase_ok (fs : FilesState) (c : CloudState)
    (e3 : List RbEvent) (fs3 : FilesState) (c3 : CloudState)
    (h : rollbackBucketPhase fs c = (e3, fs3, c3, none)) :
    fs3.bucketConfigFile = none ∧
    fs3.ec2InstanceIdFile = fs.ec2InstanceIdFile ∧
    fs3.securityGroupIdFile = fs.securityGroupIdFile := by
  unfold rollbackBucketPhase at h
  split at h
  · simp only [Prod.mk.injEq] at h
    obtain ⟨-, rfl, -, -⟩ := h
    simp_all
  · rename_i st hfs
    cases hop : delete_s3_bucket c st.bucket with
    | error e =>
      rw [hop] at h
      simp at h
    | ok val =>
      obtain ⟨cNew, evs⟩ := val
      rw [hop] at h
      simp only [Prod.mk.injEq] at h
      obtain ⟨-, rfl, -, -⟩ := h
      simp

/-- Rollback on a fully cleared tracking state makes no provider call,
changes nothing and raises nothing. -/
theorem rollback_on_empty (c : CloudState) :
    rollback_all_resources
        { ec2InstanceIdFile := none, securityGroupIdFile := none,
          bucketConfigFile := none } c =
      { events := [],
        files := { ec2InstanceIdFile := none, securityGroupIdFile := none,
                   bucketConfigFile := none },
        cloud := c, err := none } := rfl

/-- Claim C5, counterexample.  The claim says every teardown step first
checks that its tracked identifier still resolves to a live resource and
silently skips if not.  But the code only checks that the tracking file
exists: with `security_group_id.txt` present while the group is gone on the
provider, `sg.delete()` is attempted anyway, the `ClientError` propagates
out of `rollback_all_resources`, and the file is left in place. -/
theorem rollback_dead_sg_not_skipped :
    (rollback_all_resources
        { ec2InstanceIdFile := none, securityGroupIdFile := some "sg-1",
          bucketConfigFile := none }
        { instances := [], securityGroups := [], buckets := [] }).err
      = some "ClientError: InvalidGroup.NotFound" ∧
    (rollback_all_resources
        { ec2InstanceIdFile := none, securityGroupIdFile := some "sg-1",
          bucketConfigFile := none }
        { instances := [], securityGroups := [], buckets := [] }).files.securityGroupIdFile
      = some "sg-1" := by
  exact ⟨rfl, rfl⟩

/-- Claim C5, amended.  Each teardown step checks only whether its local
tracking artifact is present (not whether the identifier still resolves to
a live resource — a stale identifier makes the run fail, see the
counterexample).  Still, whenever a rollback run completes without error it
clears every tracking artifact, so running rollback again afterwards makes
no provider call, reports no error, and leaves the record empty. -/
theorem rollback_twice_no_error_empty_record (fs : FilesState) (c : CloudState)
    (h : (rollback_all_resources fs c).err = none) :
    (rollback_all_resources fs c).files =
      { ec2InstanceIdFile := none, securityGroupIdFile := none,
        bucketConfigFile := none } ∧
    (rollback_all_resources (rollback_all_resources fs c).files
        (rollback_all_resources fs c).cloud).err = none ∧
    (rollback_all_resources (rollback_all_resources fs c).files
        (rollback_all_resources fs c).cloud).events = [] ∧
    (rollback_all_resources (rollback_all_resources fs c).files
        (rollback_all_resources fs c).cloud).files =
      { ec2InstanceIdFile := none, securityGroupIdFile := none,
        bucketConfigFile := none } := by
  have hfiles : (rollback_all_resources fs c).files =
      { ec2InstanceIdFile := none, securityGroupIdFile := none,
        bucketConfigFile := none } := by
    unfold rollback_all_resources at h ⊢
    split at h
    · simp at h
    · rename_i e1 fs1 c1 heq1
      split at h
      · simp at h
      · rename_i e2 fs2 c2 heq2
        split at h
        rename_i e3 fs3 c3 err3 heq3
        simp only at h ⊢
        rw [h] at heq3
        obtain ⟨h1a, h1b, h1c⟩ := rollbackEc2Phase_ok fs c e1 fs1 c1 heq1
        obtain ⟨h2a, h2b, h2c⟩ := rollbackSgPhase_ok fs1 c1 e2 fs2 c2 heq2
        obtain ⟨h3a, h3b, h3c⟩ := rollbackBucketPhase_ok fs2 c2 e3 fs3 c3 heq3
        cases fs3
        simp_all
  refine ⟨hfiles, ?_, ?_, ?_⟩ <;> rw [hfiles, rollback_on_empty]

/-- A fully tracked environment, used as a witness input below. -/
def fsAllTracked : FilesState :=
  { ec2InstanceIdFile := some "i-1", securityGroupIdFile := some "sg-1",
    bucketConfigFile := some (BucketRecord.mk "b" "ap-south-1" (some "dev")) }

/-- A provider state where all three tracked resources of `fsAllTracked`
are live, used as a witness input below. -/
def cloudAllLive : CloudState :=
  { instances := ["i-1"], securityGroups := ["sg-1"],
    buckets := [("b", ["k1", "k2"])] }

/-- Claim C5, witness for the amended theorem: a fully tracked environment
whose three resources are all live rolls back without error, and the
theorem applies to it. -/
theorem rollback_twice_no_error_empty_record_witness :
    (rollback_all_resources fsAllTracked cloudAllLive).files =
      { ec2InstanceIdFile := none, securityGroupIdFile := none,
        bucketConfigFile := none } ∧
    (rollback_all_resources (rollback_all_resources fsAllTracked cloudAllLive).files
        (rollback_all_resources fsAllTracked cloudAllLive).cloud).err = none ∧
    (rollback_all_resources (rollback_all_resources fsAllTracked cloudAllLive).files
        (rollback_all_resources fsAllTracked cloudAllLive).cloud).events = [] ∧
    (rollback_all_resources (rollback_all_resources fsAllTracked cloudAllLive).files
        (rollback_all_resources fsAllTracked cloudAllLive).cloud).files =
      { ec2InstanceIdFile := none, securityGroupIdFile := none,
        bucketConfigFile := none } :=
  rollback_twice_no_error_empty_record fsAllTracked cloudAllLive rfl

/-- A trace with no `q`-event trivially satisfies `Precedes p q`. -/
theorem precedes_of_no_q (p q : RbEvent → Bool) (t : List RbEvent)
    (h : ∀ e ∈ t, q e = false) : Precedes p q t :=
  ⟨t, [], by simp, h, by simp⟩

/-- A trace with no `p`-event trivially satisfies `Precedes p q`. -/
theorem precedes_of_no_p (p q : RbEvent → Bool) (t : List RbEvent)
    (h : ∀ e ∈ t, p e = false) : Precedes p q t :=
  ⟨[], t, by simp, by simp, h⟩

/-- To show `Precedes p q t`, exhibit a split of `t` whose left part has no
`q`-event and whose right part has no `p`-event. -/
theorem precedes_intro (p q : RbEvent → Bool) (t t1 t2 : List RbEvent)
    (ht : t = t1 ++ t2) (h1 : ∀ e ∈ t1, q e = false)
    (h2 : ∀ e ∈ t2, p e = false) : Precedes p q t :=
  ⟨t1, t2, ht, h1, h2⟩

/-- Sanity check that `Precedes` captures ordering: every position holding
a `p`-event is strictly before every position holding a `q`-event. -/
theorem precedes_lt (p q : RbEvent → Bool) (t : List RbEvent)
    (h : Precedes p q t) (i j : Nat) (hi : i < t.length) (hj : j < t.length)
    (hp : p (t.get ⟨i, hi⟩) = true) (hq : q (t.get ⟨j, hj⟩) = true) : i < j := by
  obtain ⟨t1, t2, rfl, h1, h2⟩ := h
  by_contra hc
  push_neg at hc
  rcases Nat.lt_or_ge i t1.length with hi1 | hi1
  · have hj1 : j < t1.length := Nat.lt_of_le_of_lt hc hi1
    have hgt : (t1 ++ t2).get ⟨j, hj⟩ = t1.get ⟨j, hj1⟩ := by
      rw [List.get_append]
    have := h1 _ (List.get_mem t1 j hj1)
    rw [hgt] at hq
    simp_all
  · have hlen : i - t1.length < t2.length := by
      have := List.length_append t1 t2 ▸ hi
      omega
    have hgt : (t1 ++ t2).get ⟨i, hi⟩ = t2.get ⟨i - t1.length, hlen⟩ := by
      rw [List.get_append_right]
      omega
    have := h2 _ (List.get_mem t2 (i - t1.length) hlen)
    rw [hgt] at hp
    simp_all

set_option maxHeartbeats 1600000 in
/-- Claim C6.  Rollback tears resources down in dependency-reverse order:
whenever an instance id is tracked and the rule set is deleted, termination
was requested and awaited first, and every wait-until-terminated event
precedes every rule-set deletion; every object of the tracked bucket is
deleted and all object deletions precede the bucket deletion; and each
tracking artifact is removed only after its resource is gone (the
instance file after the terminated wait, the group file after the group
deletion, `bucket.json` after the bucket deletion). -/
theorem rollback_dependency_reverse_order (fs : FilesState) (c : CloudState) :
    (∀ iid gid, fs.ec2InstanceIdFile = some iid →
        RbEvent.deleteSecurityGroup gid ∈ (rollback_all_resources fs c).events →
        RbEvent.terminateInstance iid ∈ (rollback_all_resources fs c).events ∧
        RbEvent.waitUntilTerminated iid ∈ (rollback_all_resources fs c).events) ∧
    Precedes isWaitTerminated isDeleteSecurityGroup (rollback_all_resources fs c).events ∧
    (∀ b p, RbEvent.deleteBucket b ∈ (rollback_all_resources fs c).events →
        c.buckets.find? (fun q => q.1 == b) = some p →
        ∀ key ∈ p.2, RbEvent.deleteObject b key ∈ (rollback_all_resources fs c).events) ∧
    Precedes isDeleteObject isDeleteBucket (rollback_all_resources fs c).events ∧
    (Precedes isWaitTerminated isRemoveEc2IdFile (rollback_all_resources fs c).events ∧
      (RbEvent.removeEc2IdFile ∈ (rollback_all_resources fs c).events →
        ∃ i, RbEvent.waitUntilTerminated i ∈ (rollback_all_resources fs c).events)) ∧
    (Precedes isDeleteSecurityGroup isRemoveSgIdFile (rollback_all_resources fs c).events ∧
      (RbEvent.removeSgIdFile ∈ (rollback_all_resources fs c).events →
        ∃ g, RbEvent.deleteSecurityGroup g ∈ (rollback_all_resources fs c).events)) ∧
    (Precedes isDeleteBucket isUnlinkBucketConfig (rollback_all_resources fs c).events ∧
      (RbEvent.unlinkBucketConfig ∈ (rollback_all_resources fs c).events →
        ∃ b2, RbEvent.deleteBucket b2 ∈ (rollback_all_resources fs c).events)) := by
  cases hec : fs.ec2InstanceIdFile with
  | some iid =>
    cases hlive : c.instances.contains iid with
    | false =>
      have hlive' : iid ∉ c.instances := by simpa using hlive
      have ht : (rollback_all_resources fs c).events = [RbEvent.terminateInstance iid] := by
        simp [rollback_all_resources, rollbackEc2Phase, terminateInstanceOp, hec, hlive, hlive']
      rw [ht]
      refine ⟨by simp, precedes_of_no_p _ _ _ (by intro e he; cases e <;> simp_all [isWaitTerminated]), by simp,
        precedes_of_no_q _ _ _ (by intro e he; cases e <;> simp_all [isDeleteBucket]),
        ⟨precedes_of_no_q _ _ _ (by intro e he; cases e <;> simp_all [isRemoveEc2IdFile]), by simp⟩,
        ⟨precedes_of_no_q _ _ _ (by intro e he; cases e <;> simp_all [isRemoveSgIdFile]), by simp⟩,
        ⟨precedes_of_no_q _ _ _ (by intro e he; cases e <;> simp_all [isUnlinkBucketConfig]), by simp⟩⟩
    | true =>
      have hlive' : iid ∈ c.instances := by simpa using hlive
      cases hsg : fs.securityGroupIdFile with
      | some gid =>
        cases hslive : c.securityGroups.contains gid with
        | false =>
          have hslive' : gid ∉ c.securityGroups := by simpa using hslive
          have ht : (rollback_all_resources fs c).events =
              [RbEvent.terminateInstance iid, RbEvent.waitUntilTerminated iid,
               RbEvent.removeEc2IdFile, RbEvent.deleteSecurityGroup gid] := by
            simp [rollback_all_resources, rollbackEc2Phase, rollbackSgPhase,
              terminateInstanceOp, deleteSecurityGroupOp, hec, hsg, hlive, hlive', hslive, hslive']
          rw [ht]
          refine ⟨?_, ?_, by simp,
            precedes_of_no_q _ _ _ (by intro e he; cases e <;> simp_all [isDeleteBucket]),
            ⟨?_, fun _ => ⟨iid, by simp⟩⟩,
            ⟨precedes_of_no_q _ _ _ (by intro e he; cases e <;> simp_all [isRemoveSgIdFile]), by simp⟩,
            ⟨precedes_of_no_q _ _ _ (by intro e he; cases e <;> simp_all [isUnlinkBucketConfig]), by simp⟩⟩
          · intro iid2 gid2 h1 _
            injection h1 with h1
            subst h1
            exact ⟨by simp, by simp⟩
          · exact precedes_intro _ _ _
              [RbEvent.terminateInstance iid, RbEvent.waitUntilTerminated iid,
               RbEvent.removeEc2IdFile]
              [RbEvent.deleteSecurityGroup gid]
              (by simp) (by intro e he; cases e <;> simp_all [isDeleteSecurityGroup]) (by intro e he; cases e <;> simp_all [isWaitTerminated])
          · exact precedes_intro _ _ _
              [RbEvent.terminateInstance iid, RbEvent.waitUntilTerminated iid]
              [RbEvent.removeEc2IdFile, RbEvent.deleteSecurityGroup gid]
              (by simp) (by intro e he; cases e <;> simp_all [isRemoveEc2IdFile]) (by intro e he; cases e <;> simp_all [isWaitTerminated])
        | true =>
          have hslive' : gid ∈ c.securityGroups := by simpa using hslive
          cases hbk : fs.bucketConfigFile with
          | none =>
            have ht : (rollback_all_resources fs c).events =
                [RbEvent.terminateInstance iid, RbEvent.waitUntilTerminated iid,
                 RbEvent.removeEc2IdFile, RbEvent.deleteSecurityGroup gid,
                 RbEvent.removeSgIdFile] := by
              simp [rollback_all_resources, rollbackEc2Phase, rollbackSgPhase,
                rollbackBucketPhase, terminateInstanceOp, deleteSecurityGroupOp,
                hec, hsg, hbk, hlive, hlive', hslive, hslive']
            rw [ht]
            refine ⟨?_, ?_, by simp,
              precedes_of_no_q _ _ _ (by intro e he; cases e <;> simp_all [isDeleteBucket]),
              ⟨?_, fun _ => ⟨iid, by simp⟩⟩,
              ⟨?_, fun _ => ⟨gid, by simp⟩⟩,
              ⟨precedes_of_no_q _ _ _ (by intro e he; cases e <;> simp_all [isUnlinkBucketConfig]), by simp⟩⟩
            · intro iid2 gid2 h1 _
              injection h1 with h1
              subst h1
              exact ⟨by simp, by simp⟩
            · exact precedes_intro _ _ _
                [RbEvent.terminateInstance iid, RbEvent.waitUntilTerminated iid,
                 RbEvent.removeEc2IdFile]
                [RbEvent.deleteSecurityGroup gid, RbEvent.removeSgIdFile]
                (by simp) (by intro e he; cases e <;> simp_all [isDeleteSecurityGroup]) (by intro e he; cases e <;> simp_all [isWaitTerminated])
            · exact precedes_intro _ _ _
                [RbEvent.terminateInstance iid, RbEvent.waitUntilTerminated iid]
                [RbEvent.removeEc2IdFile, RbEvent.deleteSecurityGroup gid,
                 RbEvent.removeSgIdFile]
                (by simp) (by intro e he; cases e <;> simp_all [isRemoveEc2IdFile]) (by intro e he; cases e <;> simp_all [isWaitTerminated])
            · exact precedes_intro _ _ _
                [RbEvent.terminateInstance iid, RbEvent.waitUntilTerminated iid,
                 RbEvent.removeEc2IdFile, RbEvent.deleteSecurityGroup gid]
                [RbEvent.removeSgIdFile]
                (by simp) (by intro e he; cases e <;> simp_all [isRemoveSgIdFile]) (by intro e he; cases e <;> simp_all [isDeleteSecurityGroup])
          | some brec =>
            cases hfind : c.buckets.find? (fun q => q.1 == brec.bucket) with
            | none =>
              have ht : (rollback_all_resources fs c).events =
                  [RbEvent.terminateInstance iid, RbEvent.waitUntilTerminated iid,
                   RbEvent.removeEc2IdFile, RbEvent.deleteSecurityGroup gid,
                   RbEvent.removeSgIdFile] := by
                simp [rollback_all_resources, rollbackEc2Phase, rollbackSgPhase,
                  rollbackBucketPhase, terminateInstanceOp, deleteSecurityGroupOp,
                  delete_s3_bucket, hec, hsg, hbk, hlive, hlive', hslive, hslive', hfind]
              rw [ht]
              refine ⟨?_, ?_, by simp,
                precedes_of_no_q _ _ _ (by intro e he; cases e <;> simp_all [isDeleteBucket]),
                ⟨?_, fun _ => ⟨iid, by simp⟩⟩,
                ⟨?_, fun _ => ⟨gid, by simp⟩⟩,
                ⟨precedes_of_no_q _ _ _ (by intro e he; cases e <;> simp_all [isUnlinkBucketConfig]), by simp⟩⟩
              · intro iid2 gid2 h1 _
                injection h1 with h1
                subst h1
                exact ⟨by simp, by simp⟩
              · exact precedes_intro _ _ _
                  [RbEvent.terminateInstance iid, RbEvent.waitUntilTerminated iid,
                   RbEvent.removeEc2IdFile]
                  [RbEvent.deleteSecurityGroup gid, RbEvent.removeSgIdFile]
                  (by simp) (by intro e he; cases e <;> simp_all [isDeleteSecurityGroup]) (by intro e he; cases e <;> simp_all [isWaitTerminated])
              · exact precedes_intro _ _ _
                  [RbEvent.terminateInstance iid, RbEvent.waitUntilTerminated iid]
                  [RbEvent.removeEc2IdFile, RbEvent.deleteSecurityGroup gid,
                   RbEvent.removeSgIdFile]
                  (by simp) (by intro e he; cases e <;> simp_all [isRemoveEc2IdFile]) (by intro e he; cases e <;> simp_all [isWaitTerminated])
              · exact precedes_intro _ _ _
                  [RbEvent.terminateInstance iid, RbEvent.waitUntilTerminated iid,
                   RbEvent.removeEc2IdFile, RbEvent.deleteSecurityGroup gid]
                  [RbEvent.removeSgIdFile]
                  (by simp) (by intro e he; cases e <;> simp_all [isRemoveSgIdFile]) (by intro e he; cases e <;> simp_all [isDeleteSecurityGroup])
            | some p0 =>
              have ht : (rollback_all_resources fs c).events =
                  RbEvent.terminateInstance iid :: RbEvent.waitUntilTerminated iid ::
                  RbEvent.removeEc2IdFile :: RbEvent.deleteSecurityGroup gid ::
                  RbEvent.removeSgIdFile ::
                  (p0.2.map (fun key => RbEvent.deleteObject brec.bucket key) ++
                    [RbEvent.deleteBucket brec.bucket, RbEvent.unlinkBucketConfig]) := by
                simp [rollback_all_resources, rollbackEc2Phase, rollbackSgPhase,
                  rollbackBucketPhase, terminateInstanceOp, deleteSecurityGroupOp,
                  delete_s3_bucket, hec, hsg, hbk, hlive, hlive', hslive, hslive', hfind]
              rw [ht]
              refine ⟨?_, ?_, ?_, ?_,
                ⟨?_, fun _ => ⟨iid, by simp⟩⟩,
                ⟨?_, fun _ => ⟨gid, by simp⟩⟩,
                ⟨?_, fun _ => ⟨brec.bucket, by simp⟩⟩⟩
              · intro iid2 gid2 h1 _
                injection h1 with h1
                subst h1
                exact ⟨by simp, by simp⟩
              · exact precedes_intro _ _ _
                  [RbEvent.terminateInstance iid, RbEvent.waitUntilTerminated iid,
                   RbEvent.removeEc2IdFile]
                  (RbEvent.deleteSecurityGroup gid :: RbEvent.removeSgIdFile ::
                    (p0.2.map (fun key => RbEvent.deleteObject brec.bucket key) ++
                      [RbEvent.deleteBucket brec.bucket, RbEvent.unlinkBucketConfig]))
                  (by simp) (by intro e he; cases e <;> simp_all [isDeleteSecurityGroup]) (by intro e he; cases e <;> simp_all [isWaitTerminated])
              · intro b p hmem hfind2 key hkey
                simp at hmem
                subst hmem
                rw [hfind] at hfind2
                injection hfind2 with hfind2
                subst hfind2
                simp [hkey]
              · exact precedes_intro _ _ _
                  (RbEvent.terminateInstance iid :: RbEvent.waitUntilTerminated iid ::
                   RbEvent.removeEc2IdFile :: RbEvent.deleteSecurityGroup gid ::
                   RbEvent.removeSgIdFile ::
                   p0.2.map (fun key => RbEvent.deleteObject brec.bucket key))
                  [RbEvent.deleteBucket brec.bucket, RbEvent.unlinkBucketConfig]
                  (by simp) (by intro e he; cases e <;> simp_all [isDeleteBucket]) (by intro e he; cases e <;> simp_all [isDeleteObject])
              · exact precedes_intro _ _ _
                  [RbEvent.terminateInstance iid, RbEvent.waitUntilTerminated iid]
                  (RbEvent.removeEc2IdFile :: RbEvent.deleteSecurityGroup gid ::
                   RbEvent.removeSgIdFile ::
                   (p0.2.map (fun key => RbEvent.deleteObject brec.bucket key) ++
                     [RbEvent.deleteBucket brec.bucket, RbEvent.unlinkBucketConfig]))
                  (by simp) (by intro e he; cases e <;> simp_all [isRemoveEc2IdFile]) (by intro e he; cases e <;> simp_all [isWaitTerminated])
              · exact precedes_intro _ _ _
                  [RbEvent.terminateInstance iid, RbEvent.waitUntilTerminated iid,
                   RbEvent.removeEc2IdFile, RbEvent.deleteSecurityGroup gid]
                  (RbEvent.removeSgIdFile ::
                   (p0.2.map (fun key => RbEvent.deleteObject brec.bucket key) ++
                     [RbEvent.deleteBucket brec.bucket, RbEvent.unlinkBucketConfig]))
                  (by simp) (by intro e he; cases e <;> simp_all [isRemoveSgIdFile]) (by intro e he; cases e <;> simp_all [isDeleteSecurityGroup])
              · exact precedes_intro _ _ _
                  (RbEvent.terminateInstance iid :: RbEvent.waitUntilTerminated iid ::
                   RbEvent.removeEc2IdFile :: RbEvent.deleteSecurityGroup gid ::
                   RbEvent.removeSgIdFile ::
                   (p0.2.map (fun key => RbEvent.deleteObject brec.bucket key) ++
                     [RbEvent.deleteBucket brec.bucket]))
                  [RbEvent.unlinkBucketConfig]
                  (by simp) (by intro e he; cases e <;> simp_all [isUnlinkBucketConfig]) (by intro e he; cases e <;> simp_all [isDeleteBucket])
      | none =>
        cases hbk : fs.bucketConfigFile with
        | none =>
          have ht : (rollback_all_resources fs c).events =
              [RbEvent.terminateInstance iid, RbEvent.waitUntilTerminated iid,
               RbEvent.removeEc2IdFile] := by
            simp [rollback_all_resources, rollbackEc2Phase, rollbackSgPhase,
              rollbackBucketPhase, terminateInstanceOp, hec, hsg, hbk, hlive, hlive']
          rw [ht]
          refine ⟨by simp, precedes_of_no_q _ _ _ (by intro e he; cases e <;> simp_all [isDeleteSecurityGroup]),
            by simp, precedes_of_no_q _ _ _ (by intro e he; cases e <;> simp_all [isDeleteBucket]),
            ⟨?_, fun _ => ⟨iid, by simp⟩⟩,
            ⟨precedes_of_no_q _ _ _ (by intro e he; cases e <;> simp_all [isRemoveSgIdFile]), by simp⟩,
            ⟨precedes_of_no_q _ _ _ (by intro e he; cases e <;> simp_all [isUnlinkBucketConfig]), by simp⟩⟩
          exact precedes_intro _ _ _
            [RbEvent.terminateInstance iid, RbEvent.waitUntilTerminated iid]
            [RbEvent.removeEc2IdFile]
            (by simp) (by intro e he; cases e <;> simp_all [isRemoveEc2IdFile]) (by intro e he; cases e <;> simp_all [isWaitTerminated])
        | some brec =>
          cases hfind : c.buckets.find? (fun q => q.1 == brec.bucket) with
          | none =>
            have ht : (rollback_all_resources fs c).events =
                [RbEvent.terminateInstance iid, RbEvent.waitUntilTerminated iid,
                 RbEvent.removeEc2IdFile] := by
              simp [rollback_all_resources, rollbackEc2Phase, rollbackSgPhase,
                rollbackBucketPhase, terminateInstanceOp, delete_s3_bucket,
                hec, hsg, hbk, hlive, hlive', hfind]
            rw [ht]
            refine ⟨by simp, precedes_of_no_q _ _ _ (by intro e he; cases e <;> simp_all [isDeleteSecurityGroup]),
              by simp, precedes_of_no_q _ _ _ (by intro e he; cases e <;> simp_all [isDeleteBucket]),
              ⟨?_, fun _ => ⟨iid, by simp⟩⟩,
              ⟨precedes_of_no_q _ _ _ (by intro e he; cases e <;> simp_all [isRemoveSgIdFile]), by simp⟩,
              ⟨precedes_of_no_q _ _ _ (by intro e he; cases e <;> simp_all [isUnlinkBucketConfig]), by simp⟩⟩
            exact precedes_intro _ _ _
              [RbEvent.terminateInstance iid, RbEvent.waitUntilTerminated iid]
              [RbEvent.removeEc2IdFile]
              (by simp) (by intro e he; cases e <;> simp_all [isRemoveEc2IdFile]) (by intro e he; cases e <;> simp_all [isWaitTerminated])
          | some p0 =>
            have ht : (rollback_all_resources fs c).events =
                RbEvent.terminateInstance iid :: RbEvent.waitUntilTerminated iid ::
                RbEvent.removeEc2IdFile ::
                (p0.2.map (fun key => RbEvent.deleteObject brec.bucket key) ++
                  [RbEvent.deleteBucket brec.bucket, RbEvent.unlinkBucketConfig]) := by
              simp [rollback_all_resources, rollbackEc2Phase, rollbackSgPhase,
                rollbackBucketPhase, terminateInstanceOp, delete_s3_bucket,
                hec, hsg, hbk, hlive, hlive', hfind]
            rw [ht]
            refine ⟨by simp, precedes_of_no_q _ _ _ (by intro e he; cases e <;> simp_all [isDeleteSecurityGroup]),
              ?_, ?_,
              ⟨?_, fun _ => ⟨iid, by simp⟩⟩,
              ⟨precedes_of_no_q _ _ _ (by intro e he; cases e <;> simp_all [isRemoveSgIdFile]), by simp⟩,
              ⟨?_, fun _ => ⟨brec.bucket, by simp⟩⟩⟩
            · intro b p hmem hfind2 key hkey
              simp at hmem
              subst hmem
              rw [hfind] at hfind2
              injection hfind2 with hfind2
              subst hfind2
              simp [hkey]
            · exact precedes_intro _ _ _
                (RbEvent.terminateInstance iid :: RbEvent.waitUntilTerminated iid ::
                 RbEvent.removeEc2IdFile ::
                 p0.2.map (fun key => RbEvent.deleteObject brec.bucket key))
                [RbEvent.deleteBucket brec.bucket, RbEvent.unlinkBucketConfig]
                (by simp) (by intro e he; cases e <;> simp_all [isDeleteBucket]) (by intro e he; cases e <;> simp_all [isDeleteObject])
            · exact precedes_intro _ _ _
                [RbEvent.terminateInstance iid, RbEvent.waitUntilTerminated iid]
                (RbEvent.removeEc2IdFile ::
                 (p0.2.map (fun key => RbEvent.deleteObject brec.bucket key) ++
                   [RbEvent.deleteBucket brec.bucket, RbEvent.unlinkBucketConfig]))
                (by simp) (by intro e he; cases e <;> simp_all [isRemoveEc2IdFile]) (by intro e he; cases e <;> simp_all [isWaitTerminated])
            · exact precedes_intro _ _ _
                (RbEvent.terminateInstance iid :: RbEvent.waitUntilTerminated iid ::
                 RbEvent.removeEc2IdFile ::
                 (p0.2.map (fun key => RbEvent.deleteObject brec.bucket key) ++
                   [RbEvent.deleteBucket brec.bucket]))
                [RbEvent.unlinkBucketConfig]
                (by simp) (by intro e he; cases e <;> simp_all [isUnlinkBucketConfig]) (by intro e he; cases e <;> simp_all [isDeleteBucket])
  | none =>
    cases hsg : fs.securityGroupIdFile with
    | some gid =>
      cases hslive : c.securityGroups.contains gid with
      | false =>
        have hslive' : gid ∉ c.securityGroups := by simpa using hslive
        have ht : (rollback_all_resources fs c).events =
            [RbEvent.deleteSecurityGroup gid] := by
          simp [rollback_all_resources, rollbackEc2Phase, rollbackSgPhase,
            deleteSecurityGroupOp, hec, hsg, hslive, hslive']
        rw [ht]
        refine ⟨by simp [hec], precedes_of_no_p _ _ _ (by intro e he; cases e <;> simp_all [isWaitTerminated]),
          by simp, precedes_of_no_q _ _ _ (by intro e he; cases e <;> simp_all [isDeleteBucket]),
          ⟨precedes_of_no_q _ _ _ (by intro e he; cases e <;> simp_all [isRemoveEc2IdFile]), by simp⟩,
          ⟨precedes_of_no_q _ _ _ (by intro e he; cases e <;> simp_all [isRemoveSgIdFile]), by simp⟩,
          ⟨precedes_of_no_q _ _ _ (by intro e he; cases e <;> simp_all [isUnlinkBucketConfig]), by simp⟩⟩
      | true =>
        have hslive' : gid ∈ c.securityGroups := by simpa using hslive
        cases hbk : fs.bucketConfigFile with
        | none =>
          have ht : (rollback_all_resources fs c).events =
              [RbEvent.deleteSecurityGroup gid, RbEvent.removeSgIdFile] := by
            simp [rollback_all_resources, rollbackEc2Phase, rollbackSgPhase,
              rollbackBucketPhase, deleteSecurityGroupOp, hec, hsg, hbk, hslive, hslive']
          rw [ht]
          refine ⟨by simp [hec], precedes_of_no_p _ _ _ (by intro e he; cases e <;> simp_all [isWaitTerminated]),
            by simp, precedes_of_no_q _ _ _ (by intro e he; cases e <;> simp_all [isDeleteBucket]),
            ⟨precedes_of_no_q _ _ _ (by intro e he; cases e <;> simp_all [isRemoveEc2IdFile]), by simp⟩,
            ⟨?_, fun _ => ⟨gid, by simp⟩⟩,
            ⟨precedes_of_no_q _ _ _ (by intro e he; cases e <;> simp_all [isUnlinkBucketConfig]), by simp⟩⟩
          exact precedes_intro _ _ _
            [RbEvent.deleteSecurityGroup gid] [RbEvent.removeSgIdFile]
            (by simp) (by intro e he; cases e <;> simp_all [isRemoveSgIdFile]) (by intro e he; cases e <;> simp_all [isDeleteSecurityGroup])
        | some brec =>
          cases hfind : c.buckets.find? (fun q => q.1 == brec.bucket) with
          | none =>
            have ht : (rollback_all_resources fs c).events =
                [RbEvent.deleteSecurityGroup gid, RbEvent.removeSgIdFile] := by
              simp [rollback_all_resources, rollbackEc2Phase, rollbackSgPhase,
                rollbackBucketPhase, deleteSecurityGroupOp, delete_s3_bucket,
                hec, hsg, hbk, hslive, hslive', hfind]
            rw [ht]
            refine ⟨by simp [hec], precedes_of_no_p _ _ _ (by intro e he; cases e <;> simp_all [isWaitTerminated]),
              by simp, precedes_of_no_q _ _ _ (by intro e he; cases e <;> simp_all [isDeleteBucket]),
              ⟨precedes_of_no_q _ _ _ (by intro e he; cases e <;> simp_all [isRemoveEc2IdFile]), by simp⟩,
              ⟨?_, fun _ => ⟨gid, by simp⟩⟩,
              ⟨precedes_of_no_q _ _ _ (by intro e he; cases e <;> simp_all [isUnlinkBucketConfig]), by simp⟩⟩
            exact precedes_intro _ _ _
              [RbEvent.deleteSecurityGroup gid] [RbEvent.removeSgIdFile]
              (by simp) (by intro e he; cases e <;> simp_all [isRemoveSgIdFile]) (by intro e he; cases e <;> simp_all [isDeleteSecurityGroup])
          | some p0 =>
            have ht : (rollback_all_resources fs c).events =
                RbEvent.deleteSecurityGroup gid :: RbEvent.removeSgIdFile ::
                (p0.2.map (fun key => RbEvent.deleteObject brec.bucket key) ++
                  [RbEvent.deleteBucket brec.bucket, RbEvent.unlinkBucketConfig]) := by
              simp [rollback_all_resources, rollbackEc2Phase, rollbackSgPhase,
                rollbackBucketPhase, deleteSecurityGroupOp, delete_s3_bucket,
                hec, hsg, hbk, hslive, hslive', hfind]
            rw [ht]
            refine ⟨by simp [hec], precedes_of_no_p _ _ _ (by intro e he; cases e <;> simp_all [isWaitTerminated]),
              ?_, ?_,
              ⟨precedes_of_no_q _ _ _ (by intro e he; cases e <;> simp_all [isRemoveEc2IdFile]), by simp⟩,
              ⟨?_, fun _ => ⟨gid, by simp⟩⟩,
              ⟨?_, fun _ => ⟨brec.bucket, by simp⟩⟩⟩
            · intro b p hmem hfind2 key hkey
              simp at hmem
              subst hmem
              rw [hfind] at hfind2
              injection hfind2 with hfind2
              subst hfind2
              simp [hkey]
            · exact precedes_intro _ _ _
                (RbEvent.deleteSecurityGroup gid :: RbEvent.removeSgIdFile ::
                 p0.2.map (fun key => RbEvent.deleteObject brec.bucket key))
                [RbEvent.deleteBucket brec.bucket, RbEvent.unlinkBucketConfig]
                (by simp) (by intro e he; cases e <;> simp_all [isDeleteBucket]) (by intro e he; cases e <;> simp_all [isDeleteObject])
            · exact precedes_intro _ _ _
                [RbEvent.deleteSecurityGroup gid]
                (RbEvent.removeSgIdFile ::
                 (p0.2.map (fun key => RbEvent.deleteObject brec.bucket key) ++
                   [RbEvent.deleteBucket brec.bucket, RbEvent.unlinkBucketConfig]))
                (by simp) (by intro e he; cases e <;> simp_all [isRemoveSgIdFile]) (by intro e he; cases e <;> simp_all [isDeleteSecurityGroup])
            · exact precedes_intro _ _ _
                (RbEvent.deleteSecurityGroup gid :: RbEvent.removeSgIdFile ::
                 (p0.2.map (fun key => RbEvent.deleteObject brec.bucket key) ++
                   [RbEvent.deleteBucket brec.bucket]))
                [RbEvent.unlinkBucketConfig]
                (by simp) (by intro e he; cases e <;> simp_all [isUnlinkBucketConfig]) (by intro e he; cases e <;> simp_all [isDeleteBucket])
    | none =>
      cases hbk : fs.bucketConfigFile with
      | none =>
        have ht : (rollback_all_resources fs c).events = [] := by
          simp [rollback_all_resources, rollbackEc2Phase, rollbackSgPhase,
            rollbackBucketPhase, hec, hsg, hbk]
        rw [ht]
        refine ⟨by simp [hec], precedes_of_no_q _ _ _ (by simp), by simp,
          precedes_of_no_q _ _ _ (by simp),
          ⟨precedes_of_no_q _ _ _ (by simp), by simp⟩,
          ⟨precedes_of_no_q _ _ _ (by simp), by simp⟩,
          ⟨precedes_of_no_q _ _ _ (by simp), by simp⟩⟩
      | some brec =>
        cases hfind : c.buckets.find? (fun q => q.1 == brec.bucket) with
        | none =>
          have ht : (rollback_all_resources fs c).events = [] := by
            simp [rollback_all_resources, rollbackEc2Phase, rollbackSgPhase,
              rollbackBucketPhase, delete_s3_bucket, hec, hsg, hbk, hfind]
          rw [ht]
          refine ⟨by simp [hec], precedes_of_no_q _ _ _ (by simp), by simp,
            precedes_of_no_q _ _ _ (by simp),
            ⟨precedes_of_no_q _ _ _ (by simp), by simp⟩,
            ⟨precedes_of_no_q _ _ _ (by simp), by simp⟩,
            ⟨precedes_of_no_q _ _ _ (by simp), by simp⟩⟩
        | some p0 =>
          have ht : (rollback_all_resources fs c).events =
              p0.2.map (fun key => RbEvent.deleteObject brec.bucket key) ++
                [RbEvent.deleteBucket brec.bucket, RbEvent.unlinkBucketConfig] := by
            simp [rollback_all_resources, rollbackEc2Phase, rollbackSgPhase,
              rollbackBucketPhase, delete_s3_bucket, hec, hsg, hbk, hfind]
          rw [ht]
          refine ⟨by simp [hec], precedes_of_no_p _ _ _ (by intro e he; cases e <;> simp_all [isWaitTerminated]),
            ?_, ?_,
            ⟨precedes_of_no_q _ _ _ (by intro e he; cases e <;> simp_all [isRemoveEc2IdFile]), by simp⟩,
            ⟨precedes_of_no_q _ _ _ (by intro e he; cases e <;> simp_all [isRemoveSgIdFile]), by simp⟩,
            ⟨?_, fun _ => ⟨brec.bucket, by simp⟩⟩⟩
          · intro b p hmem hfind2 key hkey
            simp at hmem
            subst hmem
            rw [hfind] at hfind2
            injection hfind2 with hfind2
            subst hfind2
            simp [hkey]
          · exact precedes_intro _ _ _
              (p0.2.map (fun key => RbEvent.deleteObject brec.bucket key))
              [RbEvent.deleteBucket brec.bucket, RbEvent.unlinkBucketConfig]
              (by simp) (by intro e he; cases e <;> simp_all [isDeleteBucket]) (by intro e he; cases e <;> simp_all [isDeleteObject])
          · exact precedes_intro _ _ _
              (p0.2.map (fun key => RbEvent.deleteObject brec.bucket key) ++
                [RbEvent.deleteBucket brec.bucket])
              [RbEvent.unlinkBucketConfig]
              (by simp) (by intro e he; cases e <;> simp_all [isUnlinkBucketConfig]) (by intro e he; cases e <;> simp_all [isDeleteBucket])

end DeployTool
